import Mathlib

/-!
Verification development for the ytdlp_webui repository.

The definitions below are a shallow embedding of the Rust sources:
  * `Database` embeds the shared value types of src/database.rs
    (WorkerStatus and the row types).
  * `Chars` embeds the string primitives used by the line parsers
    (Rust str::trim, str::split, u8/f32 from_str).
  * `Ytdlp` embeds src/ytdlp.rs (size units, Eta, parse_stderr_line).
  * `Ffmpeg` embeds src/ffmpeg.rs (size units, Time).
  * `WorkerTranscode` embeds src/worker_transcode.rs (the transcode
    start protocol and the worker body up to the subprocess spawn).
  * `WorkerDownload` embeds src/worker_download.rs (the download start
    protocol and the worker body supervision tail).
  * `Routes` embeds the delete handlers of src/routes.rs.
  * `Protocol` gives per-key interleaving models of the start/worker
    races, with the atomic steps taken from the lock blocks of the
    two worker files.

Effectful calls (database, filesystem, subprocess, thread pool) are
modelled by explicit environment records carrying their results; the
control flow around them follows the source line by line.  Wall-clock
reads (`get_unix_time`) are modelled by a `now : Nat` parameter.
-/

deriving instance DecidableEq for Except

namespace Database

/-- WorkerStatus from src/database.rs (discriminants 0..4). -/
inductive WorkerStatus
  | none
  | queued
  | running
  | finished
  | failed
  deriving DecidableEq, Repr

/-- WorkerStatus::is_busy from src/database.rs: Queued and Running are busy. -/
def WorkerStatus.is_busy : WorkerStatus → Bool
  | .queued => true
  | .running => true
  | .none => false
  | .finished => false
  | .failed => false

/-- AudioExtension from src/database.rs. -/
inductive AudioExtension
  | m4a
  | aac
  | mp3
  | webm
  deriving DecidableEq, Repr

/-- YtdlpRow from src/database.rs (key fields omitted; paths as char lists). -/
structure YtdlpRow where
  status : WorkerStatus
  unix_time : Nat
  infojson_path : Option (List Char)
  stdout_log_path : Option (List Char)
  stderr_log_path : Option (List Char)
  system_log_path : Option (List Char)
  audio_path : Option (List Char)
  deriving DecidableEq, Repr

/-- FfmpegRow from src/database.rs (key fields omitted). -/
structure FfmpegRow where
  status : WorkerStatus
  unix_time : Nat
  stdout_log_path : Option (List Char)
  stderr_log_path : Option (List Char)
  system_log_path : Option (List Char)
  audio_path : Option (List Char)
  deriving DecidableEq, Repr

end Database

namespace Chars

/-- Unicode White_Space characters: the set used by Rust str::trim and by
the default (Unicode) `backslash-s` class of the regex crate. -/
def isRustWs (c : Char) : Bool :=
  c = ' ' || c = '\t' || c = '\n' || c = '\r' ||
  c = '\x0b' || c = '\x0c' || c = '\u0085' || c = ' ' ||
  c = ' ' ||
  (' ' ≤ c && c ≤ ' ') ||
  c = ' ' || c = ' ' || c = ' ' || c = ' ' ||
  c = '　'

/-- Last character of a list, with a default for the empty list. -/
def lastCharD (d : Char) : List Char → Char
  | [] => d
  | [c] => c
  | _ :: c :: rest => lastCharD d (c :: rest)

/-- Leading-whitespace removal (the left half of Rust str::trim). -/
def trimLeft (cs : List Char) : List Char :=
  cs.dropWhile isRustWs

/-- Trailing-whitespace removal (the right half of Rust str::trim). -/
def trimRight : List Char → List Char
  | [] => []
  | c :: rest =>
      match trimRight rest with
      | [] => if isRustWs c then [] else [c]
      | r => c :: r

/-- Rust str::trim: drop leading and trailing whitespace. -/
def rustTrim (cs : List Char) : List Char :=
  trimRight (trimLeft cs)

/-- Rust str::split with a single char separator: always non-empty,
an empty input yields one empty piece. -/
def splitOnColon : List Char → List (List Char)
  | [] => [[]]
  | c :: rest =>
      if c = ':' then [] :: splitOnColon rest
      else
        match splitOnColon rest with
        | [] => [[c]]
        | p :: ps => (c :: p) :: ps

/-- Digit test used by the numeric parsers. -/
def isDigitChar (c : Char) : Bool :=
  '0' ≤ c && c ≤ '9'

/-- Value of a digit string (the string is assumed to be all digits). -/
def digitsVal (cs : List Char) : Nat :=
  cs.foldl (fun acc c => acc * 10 + (c.toNat - '0'.toNat)) 0

/-- Rust `str::parse::<u8>`: an optional leading '+', then one or more
digits, the value fitting in 0..=255; anything else is an error. -/
def parseU8 (cs : List Char) : Option Nat :=
  let body := match cs with
    | '+' :: rest => rest
    | rest => rest
  if body = [] then none
  else if body.all isDigitChar then
    let v := digitsVal body
    if v ≤ 255 then some v else none
  else none

/-- Value model for Rust f32 parsing: a parsed decimal is kept exactly as
sign, mantissa digits and a base-10 exponent (its value is
(-1)^neg * mantissa * 10^exp10).  Rounding to binary f32 is irrelevant to
the claims settled here, which depend only on parse success and on
equality of the results of parsing the same component string. -/
inductive F32Val
  | nan
  | inf (neg : Bool)
  | val (neg : Bool) (mantissa : Nat) (exp10 : Int)
  deriving DecidableEq, Repr

/-- Case-insensitive comparison of a candidate with an ASCII keyword. -/
def lowerEq (cs : List Char) (kw : List Char) : Bool :=
  cs.map Char.toLower = kw

/-- Rust `str::parse::<f32>`: optional sign, then `inf`, `infinity`,
`nan` (case-insensitively) or a decimal mantissa with at least one digit
and an optional exponent; the whole input must be consumed. -/
def parseF32 (cs : List Char) : Option F32Val :=
  let signed : Bool × List Char :=
    match cs with
    | '+' :: rest => (false, rest)
    | '-' :: rest => (true, rest)
    | rest => (false, rest)
  let neg := signed.1
  let body := signed.2
  if lowerEq body ['i', 'n', 'f'] then some (.inf neg)
  else if lowerEq body ['i', 'n', 'f', 'i', 'n', 'i', 't', 'y'] then some (.inf neg)
  else if lowerEq body ['n', 'a', 'n'] then some .nan
  else
    let intPart := body.takeWhile isDigitChar
    let r1 := body.dropWhile isDigitChar
    let fracSplit : List Char × List Char :=
      match r1 with
      | '.' :: rest => (rest.takeWhile isDigitChar, rest.dropWhile isDigitChar)
      | _ => ([], r1)
    let fracPart := fracSplit.1
    let r2 := fracSplit.2
    if intPart = [] ∧ fracPart = [] then none
    else
      let mantissa : Nat := digitsVal intPart * 10 ^ fracPart.length + digitsVal fracPart
      let fracExp : Int := -(fracPart.length : Int)
      match r2 with
      | [] => some (.val neg mantissa fracExp)
      | e :: r3 =>
          if e = 'e' ∨ e = 'E' then
            let expSigned : Bool × List Char :=
              match r3 with
              | '+' :: rest => (false, rest)
              | '-' :: rest => (true, rest)
              | rest => (false, rest)
            let digits := expSigned.2
            if digits ≠ [] ∧ digits.all isDigitChar then
              let ex : Int :=
                if expSigned.1 then -(digitsVal digits : Int) else (digitsVal digits : Int)
              some (.val neg mantissa (fracExp + ex))
            else none
          else none

end Chars

namespace Ytdlp

open Chars

/-- SizeBytes from src/ytdlp.rs. -/
inductive SizeBytes
  | byte
  | kib
  | mib
  | gib
  deriving DecidableEq, Repr

/-- TryFrom<&str> for ytdlp SizeBytes. -/
def SizeBytes.try_from : List Char → Option SizeBytes
  | ['B'] => some .byte
  | ['K', 'i', 'B'] => some .kib
  | ['M', 'i', 'B'] => some .mib
  | ['G', 'i', 'B'] => some .gib
  | _ => none

/-- SizeBytes::to_bytes from src/ytdlp.rs (decimal multipliers). -/
def SizeBytes.to_bytes : SizeBytes → Nat
  | .byte => 1
  | .kib => 1000
  | .mib => 1000000
  | .gib => 1000000000

/-- Eta from src/ytdlp.rs (all four fields are u8 in the source). -/
structure Eta where
  days : Nat
  hours : Nat
  minutes : Nat
  seconds : Nat
  deriving DecidableEq, Repr

/-- Eta::default. -/
def Eta.default : Eta :=
  { days := 0, hours := 0, minutes := 0, seconds := 0 }

/-- EtaParseError from src/ytdlp.rs (the ParseIntError payloads are dropped). -/
inductive EtaParseError
  | invalidSeconds
  | invalidMinutes
  | invalidHours
  | invalidDays
  deriving DecidableEq, Repr

/-- One `if let Some(v) = parts.get(i)` step of Eta::try_from_str: an
absent component leaves the default, a present component must parse. -/
def etaField (e : EtaParseError) : Option (List Char) → Except EtaParseError Nat
  | Option.none => .ok 0
  | Option.some v =>
      match parseU8 v with
      | Option.some n => .ok n
      | Option.none => .error e

/-- Eta::try_from_str from src/ytdlp.rs: split on ':', reverse, then read
seconds, minutes, hours, days from the four least significant components. -/
def Eta.try_from_str (cs : List Char) : Except EtaParseError Eta := do
  let parts := (splitOnColon cs).reverse
  let seconds ← etaField .invalidSeconds parts[0]?
  let minutes ← etaField .invalidMinutes parts[1]?
  let hours ← etaField .invalidHours parts[2]?
  let days ← etaField .invalidDays parts[3]?
  return { days := days, hours := hours, minutes := minutes, seconds := seconds }

end Ytdlp

namespace Ffmpeg

open Chars

/-- SizeBytes from src/ffmpeg.rs (has both binary and decimal units). -/
inductive SizeBytes
  | byte
  | kib
  | kb
  | mib
  | mb
  | gib
  | gb
  deriving DecidableEq, Repr

/-- TryFrom<&str> for ffmpeg SizeBytes. -/
def SizeBytes.try_from : List Char → Option SizeBytes
  | ['B'] => some .byte
  | ['K', 'i', 'B'] => some .kib
  | ['K', 'B'] => some .kb
  | ['k', 'B'] => some .kb
  | ['M', 'i', 'B'] => some .mib
  | ['M', 'B'] => some .mb
  | ['G', 'i', 'B'] => some .gib
  | ['G', 'B'] => some .gb
  | _ => none

/-- SizeBytes::to_bytes from src/ffmpeg.rs: the `iB` units are binary
(1024-based) while the `B` units are decimal. -/
def SizeBytes.to_bytes : SizeBytes → Nat
  | .byte => 1
  | .kib => 1024
  | .mib => 1024 * 1024
  | .gib => 1024 * 1024 * 1024
  | .kb => 1000
  | .mb => 1000 * 1000
  | .gb => 1000 * 1000 * 1000

/-- SizeBits from src/ffmpeg.rs. -/
inductive SizeBits
  | bits
  | kb
  | mb
  | gb
  deriving DecidableEq, Repr

/-- SizeBits::try_from_long from src/ffmpeg.rs. -/
def SizeBits.try_from_long : List Char → Option SizeBits
  | ['b', 'i', 't', 's'] => some .bits
  | ['k', 'b', 'i', 't', 's'] => some .kb
  | ['M', 'b', 'i', 't', 's'] => some .mb
  | ['G', 'b', 'i', 't', 's'] => some .gb
  | _ => none

/-- SizeBits::try_from_short from src/ffmpeg.rs. -/
def SizeBits.try_from_short : List Char → Option SizeBits
  | ['b'] => some .bits
  | ['k', 'b'] => some .kb
  | ['M', 'b'] => some .mb
  | ['G', 'b'] => some .gb
  | _ => none

/-- SizeBits::to_bits from src/ffmpeg.rs (decimal multipliers). -/
def SizeBits.to_bits : SizeBits → Nat
  | .bits => 1
  | .kb => 1000
  | .mb => 1000000
  | .gb => 1000000000

/-- Time from src/ffmpeg.rs; the u8 fields are Nat, the f32 seconds use
the exact-decimal model of f32 parsing. -/
structure Time where
  days : Nat
  hours : Nat
  minutes : Nat
  seconds : F32Val
  deriving DecidableEq

/-- Time::default. -/
def Time.default : Time :=
  { days := 0, hours := 0, minutes := 0, seconds := .val false 0 0 }

/-- TimeParseError from src/ffmpeg.rs (error payloads dropped). -/
inductive TimeParseError
  | invalidSeconds
  | invalidMinutes
  | invalidHours
  | invalidDays
  deriving DecidableEq, Repr

/-- The seconds step of Time::try_from_str (an f32 parse). -/
def timeSecondsField : Option (List Char) → Except TimeParseError F32Val
  | Option.none => .ok (.val false 0 0)
  | Option.some v =>
      match parseF32 v with
      | Option.some q => .ok q
      | Option.none => .error .invalidSeconds

/-- One u8 step of Time::try_from_str. -/
def timeField (e : TimeParseError) : Option (List Char) → Except TimeParseError Nat
  | Option.none => .ok 0
  | Option.some v =>
      match parseU8 v with
      | Option.some n => .ok n
      | Option.none => .error e

/-- Time::try_from_str from src/ffmpeg.rs: split on ':', reverse, read a
fractional seconds component then u8 minutes, hours, days. -/
def Time.try_from_str (cs : List Char) : Except TimeParseError Time := do
  let parts := (splitOnColon cs).reverse
  let seconds ← timeSecondsField parts[0]?
  let minutes ← timeField .invalidMinutes parts[1]?
  let hours ← timeField .invalidHours parts[2]?
  let days ← timeField .invalidDays parts[3]?
  return { days := days, hours := hours, minutes := minutes, seconds := seconds }

end Ffmpeg

namespace Ytdlp

open Chars

/-- Literal matcher: consume an expected literal, return the remainder. -/
def stripLit : List Char → List Char → Option (List Char)
  | [], cs => some cs
  | _ :: _, [] => none
  | p :: ps, c :: cs => if p = c then stripLit ps cs else none

/-- The regex class `backslash-s` applied greedily at least once
(one-or-more whitespace); returns the remainder.  Maximal munch is exact
here because in both stderr regexes the atom following `backslash-s +`
starts with a non-whitespace literal character. -/
def chompWs : List Char → Option (List Char)
  | [] => none
  | c :: rest => if isRustWs c then some (rest.dropWhile isRustWs) else none

/-- Character class of YOUTUBE_ID_REGEX in src/ytdlp.rs:
`[a-zA-Z0-9 backslash / . - _]`. -/
def isYoutubeIdChar (c : Char) : Bool :=
  ('a' ≤ c && c ≤ 'z') || ('A' ≤ c && c ≤ 'Z') || ('0' ≤ c && c ≤ '9') ||
  c = '\\' || c = '/' || c = '.' || c = '-' || c = '_'

/-- Attempt to match USAGE_ERROR_REGEX `yt-dlp.exe:\s+error:\s+(.+)` at
the start of the given suffix; the unescaped dot matches any character
except a newline, and the greedy `(.+)` capture runs to the end of the
line (stopping at a newline, which a stream line cannot contain after
trimming). -/
def usageMatchAt (cs : List Char) : Option (List Char) := do
  let r1 ← stripLit ['y', 't', '-', 'd', 'l', 'p'] cs
  match r1 with
  | [] => none
  | dot :: r2 =>
      if dot = '\n' then none
      else do
        let r3 ← stripLit ['e', 'x', 'e', ':'] r2
        let r4 ← chompWs r3
        let r5 ← stripLit ['e', 'r', 'r', 'o', 'r', ':'] r4
        let r6 ← chompWs r5
        let cap := r6.takeWhile (fun c => c ≠ '\n')
        if cap = [] then none else some cap

/-- Attempt to match MISSING_VIDEO_REGEX
`ERROR:\s+\[youtube\]\s+(id): Video unavailable` at the start of the given
suffix.  The greedy id capture is exact without backtracking because ':'
is not an id character. -/
def missingMatchAt (cs : List Char) : Option (List Char) := do
  let r1 ← stripLit ['E', 'R', 'R', 'O', 'R', ':'] cs
  let r2 ← chompWs r1
  let r3 ← stripLit ['[', 'y', 'o', 'u', 't', 'u', 'b', 'e', ']'] r2
  let r4 ← chompWs r3
  let run := r4.takeWhile isYoutubeIdChar
  if run = [] then none
  else do
    let _ ← stripLit
      [':', ' ', 'V', 'i', 'd', 'e', 'o', ' ',
       'u', 'n', 'a', 'v', 'a', 'i', 'l', 'a', 'b', 'l', 'e']
      (r4.dropWhile isYoutubeIdChar)
    some run

/-- Unanchored leftmost search: try the matcher at every start position,
left to right (the regex crate's leftmost match semantics). -/
def searchSome {A : Type} (f : List Char → Option A) : List Char → Option A
  | [] => f []
  | c :: rest =>
      match f (c :: rest) with
      | some r => some r
      | none => searchSome f rest

/-- ParsedStderrLine from src/ytdlp.rs. -/
inductive ParsedStderrLine
  | usageError (msg : List Char)
  | missingVideo (id : List Char)
  deriving DecidableEq, Repr

/-- parse_stderr_line from src/ytdlp.rs: trim the line, try the usage
error regex first, then the missing video regex, else yield nothing. -/
def parse_stderr_line (line : List Char) : Option ParsedStderrLine :=
  let t := rustTrim line
  match searchSome usageMatchAt t with
  | some msg => some (.usageError msg)
  | none =>
      match searchSome missingMatchAt t with
      | some id => some (.missingVideo id)
      | none => none

end Ytdlp

namespace WorkerTranscode

open Database Chars

/-- TranscodeState from src/worker_transcode.rs.  The f32 speed factor
uses the exact f32 value model. -/
structure TranscodeState where
  worker_status : WorkerStatus
  file_cached : Bool
  fail_reason : Option (List Char)
  start_time_unix : Nat
  end_time_unix : Nat
  source_duration_milliseconds : Option Nat
  source_start_time_milliseconds : Option Nat
  source_speed_bits : Option Nat
  transcode_duration_milliseconds : Option Nat
  transcode_size_bytes : Option Nat
  transcode_speed_bits : Option Nat
  transcode_speed_factor : Option F32Val
  deriving DecidableEq, Repr

/-- TranscodeState::default, with get_unix_time modelled by `now`. -/
def TranscodeState.default (now : Nat) : TranscodeState :=
  { worker_status := .none
    file_cached := false
    fail_reason := none
    start_time_unix := now
    end_time_unix := now
    source_duration_milliseconds := none
    source_start_time_milliseconds := none
    source_speed_bits := none
    transcode_duration_milliseconds := none
    transcode_size_bytes := none
    transcode_speed_bits := none
    transcode_speed_factor := none }

/-- TranscodeStartError from src/worker_transcode.rs. -/
inductive TranscodeStartError
  | databaseConnection
  | databaseExecute
  deriving DecidableEq, Repr

/-- Results of the effectful calls made by try_start_transcode_worker:
the pooled connection checkout, the select_ffmpeg_entry read (its row on
success) and the insert_ffmpeg_entry write. -/
structure TranscodeStartEnv where
  connOk : Bool
  selectOk : Bool
  row : Option FfmpegRow
  insertOk : Bool
  deriving DecidableEq, Repr

/-- Observable outcome of one try_start_transcode_worker call for the
given key: the returned value, the final cache cell for the key, how many
condvar notify_all broadcasts the call performed, and whether it read the
index, wrote the Queued row, or enqueued the worker body on the pool. -/
structure TranscodeStartOutcome where
  result : Except TranscodeStartError WorkerStatus
  cell : TranscodeState
  notifies : Nat
  dbSelected : Bool
  dbInserted : Bool
  enqueued : Bool
  deriving DecidableEq, Repr

/-- try_start_transcode_worker from src/worker_transcode.rs (lines
141-243).  The fast path (147-161) runs under the cell lock: Queued,
Running and Finished return immediately; None and Failed reset the cell
to a fresh Queued state and broadcast.  The scope guard (162-175) resets
the cell to default and broadcasts on any error before the pool accepts
the body.  The durable path (176-195) publishes the stored row status to
the cell whenever the row has a non-null audio_path (file_cached is set;
file existence on disk is not consulted — the check is left as a TODO in
the source), else writes a Queued row and enqueues the body (196-242). -/
def try_start_transcode_worker (now : Nat) (cell? : Option TranscodeState)
    (env : TranscodeStartEnv) : TranscodeStartOutcome :=
  let cell0 := cell?.getD (TranscodeState.default now)
  match cell0.worker_status with
  | .queued | .running | .finished =>
      { result := .ok cell0.worker_status, cell := cell0, notifies := 0,
        dbSelected := false, dbInserted := false, enqueued := false }
  | .none | .failed =>
      let claimed : TranscodeState :=
        { TranscodeState.default now with worker_status := .queued }
      if ¬env.connOk then
        { result := .error .databaseConnection, cell := TranscodeState.default now,
          notifies := 2, dbSelected := false, dbInserted := false, enqueued := false }
      else if ¬env.selectOk then
        { result := .error .databaseExecute, cell := TranscodeState.default now,
          notifies := 2, dbSelected := false, dbInserted := false, enqueued := false }
      else
        match env.row with
        | some entry =>
            match entry.audio_path with
            | some _ =>
                { result := .ok entry.status,
                  cell := { claimed with worker_status := entry.status, file_cached := true },
                  notifies := 2, dbSelected := true, dbInserted := false, enqueued := false }
            | none =>
                if ¬env.insertOk then
                  { result := .error .databaseExecute, cell := TranscodeState.default now,
                    notifies := 2, dbSelected := true, dbInserted := false, enqueued := false }
                else
                  { result := .ok .queued, cell := claimed, notifies := 1,
                    dbSelected := true, dbInserted := true, enqueued := true }
        | none =>
            if ¬env.insertOk then
              { result := .error .databaseExecute, cell := TranscodeState.default now,
                notifies := 2, dbSelected := true, dbInserted := false, enqueued := false }
            else
              { result := .ok .queued, cell := claimed, notifies := 1,
                dbSelected := true, dbInserted := true, enqueued := true }

/-- TranscodeError from src/worker_transcode.rs (payloads trimmed to what
the claims need). -/
inductive TranscodeErrorKind
  | workerError
  | usageError (msg : List Char)
  | missingOutputFile (path : List Char)
  | downloadWorkerFailed
  | downloadPathMissing
  | downloadFileMissing (path : List Char)
  | loggedFail
  | databaseConnection
  | databaseExecute
  deriving DecidableEq, Repr

/-- Result of the wait loop of enqueue_transcode_worker (lines 252-264). -/
inductive WaitResult
  | stillWaiting
  | abortFailed
  | proceed
  deriving DecidableEq, Repr

/-- The wait loop of enqueue_transcode_worker (lines 252-264) over the
sequence of download cell statuses observed under the download cell lock
(the head is the status seen before the first wait; each further element
is the status seen after a condvar wakeup).  Failed aborts, Finished
proceeds, every other status waits again; an exhausted observation list
means the body is still blocked in the loop. -/
def waitDownloadLoop : List WorkerStatus → WaitResult
  | [] => .stillWaiting
  | s :: rest =>
      match s with
      | .failed => .abortFailed
      | .finished => .proceed
      | .none | .queued | .running => waitDownloadLoop rest

/-- Effectful inputs of enqueue_transcode_worker up to the subprocess
spawn: the download cell statuses it observes while waiting, the
database calls that resolve the source path, and whether the source file
exists on disk. -/
structure TranscodeBodyEnv where
  obs : List WorkerStatus
  connOk : Bool
  selectOk : Bool
  row : Option YtdlpRow
  sourceExists : Bool
  deriving DecidableEq, Repr

/-- How far enqueue_transcode_worker gets before (or at) the transcoder
spawn: still blocked in the wait loop, returned a typed error, panicked
(the source unwraps the ytdlp row with `.expect`), or reached the
Command spawn with the resolved source path. -/
inductive TranscodeBodyPhase
  | stillWaiting
  | errored (e : TranscodeErrorKind)
  | panicked
  | spawnedProcess (src : List Char)
  deriving DecidableEq, Repr

/-- enqueue_transcode_worker from src/worker_transcode.rs (lines
245-360), modelled up to the transcoder Command spawn: wait on the
download cell (252-264), resolve the source path from the ytdlp row
(265-277), then build the arguments and spawn (294-360). -/
def enqueue_transcode_worker_until_spawn (env : TranscodeBodyEnv) : TranscodeBodyPhase :=
  match waitDownloadLoop env.obs with
  | .stillWaiting => .stillWaiting
  | .abortFailed => .errored .downloadWorkerFailed
  | .proceed =>
      if ¬env.connOk then .errored .databaseConnection
      else if ¬env.selectOk then .errored .databaseExecute
      else
        match env.row with
        | none => .panicked
        | some entry =>
            match entry.audio_path with
            | none => .errored .downloadPathMissing
            | some p =>
                if ¬env.sourceExists then .errored (.downloadFileMissing p)
                else .spawnedProcess p

end WorkerTranscode

namespace WorkerDownload

open Database Chars

/-- DownloadState from src/worker_download.rs: the stage-1 cache value of
this revision is a plain progress record whose only status information is
the is_finished flag (there is no WorkerStatus and no condition variable
in the stage-1 cache of this file). -/
structure DownloadState where
  is_finished : Bool
  start_time_unix : Nat
  end_time_unix : Nat
  downloaded_bytes : Nat
  size_bytes : Nat
  speed_bytes : Nat
  deriving DecidableEq, Repr

/-- DownloadState::default, with get_unix_time modelled by `now`. -/
def DownloadState.default (now : Nat) : DownloadState :=
  { is_finished := false
    start_time_unix := now
    end_time_unix := now
    downloaded_bytes := 0
    size_bytes := 0
    speed_bytes := 0 }

/-- The status that the stage-1 fast path of this revision reports for a
cache entry (src/worker_download.rs lines 113-121 and the terminal
commit 177-187): an absent entry is a cold cell (None), a present
unfinished entry answers Running, a finished entry answers Finished.
Queued and Failed are not representable in the stage-1 cache. -/
def downloadObservedStatus : Option DownloadState → WorkerStatus
  | Option.none => .none
  | Option.some s => if s.is_finished then .finished else .running

/-- DownloadStartStatus from src/worker_download.rs. -/
inductive DownloadStartStatus
  | started
  | running
  | finished
  deriving DecidableEq, Repr

/-- DownloadStartError from src/worker_download.rs. -/
inductive DownloadStartError
  | databaseConnection
  | databaseInsert
  | databaseDelete
  deriving DecidableEq, Repr

/-- Effectful inputs of try_start_download_worker: the redownload flag,
the cache entry for the key, the connection checkout, the
delete_worker_entry write, the current ytdlp row (select_worker_status
reads its status column) and the insert_worker_entry write. -/
structure DownloadStartEnv where
  isRedownload : Bool
  cell? : Option DownloadState
  connOk : Bool
  deleteOk : Bool
  row : Option YtdlpRow
  insertOk : Bool
  deriving DecidableEq, Repr

/-- Observable outcome of one try_start_download_worker call: the
returned value, the final cache entry for the key, and whether the call
deleted or inserted the index row or enqueued a worker body.  The
`notified` field records condvar broadcasts: it is false on every path
because the stage-1 cache of this file is an Arc-Mutex-HashMap with no
condition variable, so no branch can broadcast anything. -/
structure DownloadStartOutcome where
  result : Except DownloadStartError DownloadStartStatus
  cell? : Option DownloadState
  dbDeleted : Bool
  dbInserted : Bool
  enqueued : Bool
  notified : Bool
  deriving DecidableEq, Repr

/-- The insert-and-enqueue tail of try_start_download_worker (lines
150-160): write a Queued row, submit the body to the pool, disarm the
rollback guard and return Started; a failed insert rolls the cache entry
back out. -/
def downloadInsertPath (now : Nat) (purged : Bool) (env : DownloadStartEnv) :
    DownloadStartOutcome :=
  if ¬env.insertOk then
    { result := .error .databaseInsert, cell? := none,
      dbDeleted := purged, dbInserted := false, enqueued := false, notified := false }
  else
    { result := .ok .started, cell? := some (DownloadState.default now),
      dbDeleted := purged, dbInserted := true, enqueued := true, notified := false }

/-- The cold continuation of try_start_download_worker after the cache
claim (lines 125-160): the default entry has been inserted under the
cache lock, the rollback guard is armed, then the index is consulted —
a stored Finished status (and nothing else about the row) publishes
Finished to the cache and returns — else the body is enqueued.  `rowNow`
is the index row after any purge; `purged` records a completed
redownload delete. -/
def downloadColdPath (now : Nat) (purged : Bool) (rowNow : Option YtdlpRow)
    (env : DownloadStartEnv) : DownloadStartOutcome :=
  if ¬env.connOk then
    { result := .error .databaseConnection, cell? := none,
      dbDeleted := purged, dbInserted := false, enqueued := false, notified := false }
  else
    match rowNow with
    | Option.some r =>
        if r.status = .finished then
          { result := .ok .finished,
            cell? := some { DownloadState.default now with is_finished := true },
            dbDeleted := purged, dbInserted := false, enqueued := false, notified := false }
        else downloadInsertPath now purged env
    | Option.none => downloadInsertPath now purged env

/-- try_start_download_worker from src/worker_download.rs (lines
92-161).  With is_redownload, an inactive entry is purged from cache and
index (97-111).  The fast path (112-124) runs under the cache lock: a
present entry returns Running or Finished by is_finished with no state
change; an absent entry is claimed by inserting a default entry.  The
rest is downloadColdPath.  The stage-1 cache of this file has no
condition variable, so `notified` is false on every path. -/
def try_start_download_worker (now : Nat) (env : DownloadStartEnv) : DownloadStartOutcome :=
  -- redownload purge (lines 97-111): only when no worker is active
  let purgeTriggered : Bool := env.isRedownload &&
    (match env.cell? with
     | Option.none => true
     | Option.some s => s.is_finished)
  if purgeTriggered then
    if ¬env.connOk then
      { result := .error .databaseConnection, cell? := none,
        dbDeleted := false, dbInserted := false, enqueued := false, notified := false }
    else if ¬env.deleteOk then
      { result := .error .databaseDelete, cell? := none,
        dbDeleted := false, dbInserted := false, enqueued := false, notified := false }
    else
      -- entry purged from cache, row deleted; the fast path then sees a cold cell
      downloadColdPath now true (none : Option YtdlpRow) env
  else
    -- fast path (lines 112-124)
    match env.cell? with
    | Option.some s =>
        { result := .ok (if s.is_finished then .finished else .running),
          cell? := some s,
          dbDeleted := false, dbInserted := false, enqueued := false, notified := false }
    | Option.none => downloadColdPath now false env.row env

/-- WorkerError from src/app.rs, plus the DatabaseConnection and
DatabaseExecute variants that src/worker_download.rs wraps with it
(payloads dropped). -/
inductive WorkerErrorKind
  | systemLogCreate
  | systemWriteFail
  | stdoutLogCreate
  | stderrLogCreate
  | stdoutWriteFail
  | stderrWriteFail
  | stdoutMissing
  | stderrMissing
  | stdoutThreadJoin
  | stderrThreadJoin
  | databaseConnection
  | databaseExecute
  deriving DecidableEq, Repr

/-- DownloadError from src/worker_download.rs. -/
inductive DownloadError
  | workerError (k : WorkerErrorKind)
  | usageError (msg : List Char)
  | invalidVideoId
  | missingOutputFile (path : List Char)
  | loggedFail
  deriving DecidableEq, Repr

/-- The stderr scraper thread of enqueue_download_worker (lines
293-325): each line is appended to the log and fed to
ytdlp::parse_stderr_line; a MissingVideo event returns the
InvalidVideoId error, a UsageError event returns the UsageError error,
every other line is skipped.  Log writes are modelled as succeeding
(a failed write would surface WorkerError::StderrWriteFail instead). -/
def stderrThreadLoop : List (List Char) → Except DownloadError Unit
  | [] => .ok ()
  | line :: rest =>
      match Ytdlp.parse_stderr_line line with
      | Option.none => stderrThreadLoop rest
      | Option.some (.missingVideo _) => .error .invalidVideoId
      | Option.some (.usageError msg) => .error (.usageError msg)

/-- Effectful inputs of enqueue_download_worker: the redownload flag and
the output-file check at entry (line 199), the log/database/spawn steps,
the result of the stdout scraper thread, the raw stderr lines fed to the
stderr scraper, the child's exit code as seen by try_wait (None when the
child was reaped elsewhere), the output-file check after supervision
(line 352), and the cache entry contents at the moment the commit guard
runs. -/
structure DownloadBodyEnv where
  isRedownload : Bool
  fileExistsAtStart : Bool
  systemLogOk : Bool
  connOk : Bool
  updatesOk : Bool
  spawnOk : Bool
  stdoutLogOk : Bool
  stderrLogOk : Bool
  stdoutResult : Except WorkerErrorKind Unit
  stderrLines : List (List Char)
  exitCode : Option Int
  fileExistsAtEnd : Bool
  audioPath : List Char
  cellAtExit : DownloadState
  deriving DecidableEq, Repr

/-- Observable outcome of one enqueue_download_worker run: the value the
body returns, the terminal status the commit guard writes to the index
row, and the cache entry the guard leaves behind (marked finished, or
removed on failure). -/
structure DownloadBodyOutcome where
  result : Except DownloadError (List Char)
  committedStatus : WorkerStatus
  cellAfter : Option DownloadState
  deriving DecidableEq, Repr

/-- Helper assembling the outcome from the body result: the commit guard
of enqueue_download_worker (lines 170-197) marks the cache entry
finished and writes Finished when the is_downloaded flag was set, else
removes the entry and writes Failed. -/
def downloadCommit (env : DownloadBodyEnv) (isDownloaded : Bool)
    (result : Except DownloadError (List Char)) : DownloadBodyOutcome :=
  if isDownloaded then
    { result := result, committedStatus := .finished,
      cellAfter := some { env.cellAtExit with is_finished := true } }
  else
    { result := result, committedStatus := .failed, cellAfter := none }

/-- The output-file commit tail of enqueue_download_worker (lines
352-363). -/
def downloadFinish (env : DownloadBodyEnv) : DownloadBodyOutcome :=
  if env.fileExistsAtEnd then
    if ¬env.connOk ∨ ¬env.updatesOk then
      -- the audio_path update failed after is_downloaded was already set
      downloadCommit env true
        (.error (.workerError (if ¬env.connOk then .databaseConnection else .databaseExecute)))
    else downloadCommit env true (.ok env.audioPath)
  else downloadCommit env false (.error (.missingOutputFile env.audioPath))

/-- enqueue_download_worker from src/worker_download.rs (lines 163-364):
skip when the file is already on disk (198-202), create the system log
and commit its path (203-215), spawn the downloader (216-237), mark the
row Running (238-243), drain both streams (244-325), join the scraper
threads (326-328) with the stdout result consulted before the stderr
result, interpret the exit code (329-351), and commit by output-file
existence (352-363).  A fatal stderr event surfaces before the exit code
is consulted, because the joined stderr thread result is propagated
first. -/
def enqueue_download_worker (env : DownloadBodyEnv) : DownloadBodyOutcome :=
  if !env.isRedownload && env.fileExistsAtStart then
    downloadCommit env true (.ok env.audioPath)
  else if ¬env.systemLogOk then
    downloadCommit env false (.error (.workerError .systemLogCreate))
  else if ¬env.connOk then
    downloadCommit env false (.error (.workerError .databaseConnection))
  else if ¬env.updatesOk then
    downloadCommit env false (.error (.workerError .databaseExecute))
  else if ¬env.spawnOk then
    downloadCommit env false (.error .loggedFail)
  else if ¬env.stdoutLogOk then
    downloadCommit env false (.error (.workerError .stdoutLogCreate))
  else if ¬env.stderrLogOk then
    downloadCommit env false (.error (.workerError .stderrLogCreate))
  else
    match env.stdoutResult with
    | .error k => downloadCommit env false (.error (.workerError k))
    | .ok _ =>
        match stderrThreadLoop env.stderrLines with
        | .error e => downloadCommit env false (.error e)
        | .ok _ =>
            match env.exitCode with
            | Option.some code =>
                if code ≠ 0 then downloadCommit env false (.error .loggedFail)
                else downloadFinish env
            | Option.none => downloadFinish env

end WorkerDownload

namespace Routes

open Database WorkerTranscode Chars

/-- Modelled from the spec: the stage-1 cache cell state that
src/routes.rs locks (`download_cache.entry(..).or_default()` followed by
`state.worker_status.is_busy()`).  routes.rs belongs to a revision whose
stage-1 cache hands out per-key cells of {state, condvar}; the cell
state carries `worker_status`, `fail_reason`, monotonic start/end
timestamps and the stage-specific progress fields (spec sections 3 and
4.4).  The DownloadState in src/worker_download.rs is an older revision
without worker_status, so the cell state used by the handlers is taken
from the spec. -/
structure DownloadCellState where
  worker_status : WorkerStatus
  fail_reason : Option (List Char)
  start_time_unix : Nat
  end_time_unix : Nat
  downloaded_bytes : Nat
  size_bytes : Nat
  speed_bytes : Nat
  deriving DecidableEq, Repr

/-- Modelled from the spec: the default (reset) stage-1 cell state. -/
def DownloadCellState.default (now : Nat) : DownloadCellState :=
  { worker_status := .none
    fail_reason := none
    start_time_unix := now
    end_time_unix := now
    downloaded_bytes := 0
    size_bytes := 0
    speed_bytes := 0 }

/-- One per-path deletion result of the delete handlers
(DeleteFileResult in src/routes.rs; the io error string is dropped). -/
inductive DeleteFileResult
  | success (filename : List Char)
  | failure (filename : List Char)
  deriving DecidableEq, Repr

/-- The responses a delete handler can produce: the 400 ApiError for a
bad extension, the Busy and Success JSON variants, 404, and the 500
ApiError for a failed connection checkout or select. -/
inductive DeleteResponse
  | badRequest
  | busy
  | notFound
  | internalError
  | ok (paths : List DeleteFileResult)
  deriving DecidableEq, Repr

/-- Effectful inputs of a delete handler: the requested extension, the
cache cell for the key, the connection checkout, the select result row,
how many rows the SQL delete removes, and which files fs::remove_file
manages to delete. -/
structure DeleteEnv (State : Type) where
  audioExt : AudioExtension
  cell? : Option State
  connOk : Bool
  selectOk : Bool
  row? : Option YtdlpRow
  frow? : Option FfmpegRow
  deleteCount : Nat
  removeOk : List Char → Bool

/-- Observable outcome of a delete handler: the response, the cache cell
it leaves for the key, whether it queried or deleted the index row, the
row left in the index, and whether the cell's condvar was broadcast. -/
structure DeleteOutcome (State : Type) where
  response : DeleteResponse
  cell? : Option State
  dbRead : Bool
  dbDeleted : Bool
  notified : Bool

/-- Per-path fs::remove_file results for a list of stored paths
(src/routes.rs lines 147-152 and 182-187). -/
def removeFiles (removeOk : List Char → Bool) (paths : List (List Char)) :
    List DeleteFileResult :=
  paths.map fun p => if removeOk p then .success p else .failure p

/-- delete_download from src/routes.rs (lines 119-154): reject a
non-m4a extension (124-126), lock the cell and answer Busy while the
status is busy (127-132), else read and delete the row (133-138), reset
the cell to default and broadcast (139-142), then answer NotFound for a
zero delete count or report per-file deletion results (144-153). -/
def delete_download (now : Nat) (env : DeleteEnv DownloadCellState) :
    DeleteOutcome DownloadCellState :=
  if env.audioExt ≠ .m4a then
    { response := .badRequest, cell? := env.cell?,
      dbRead := false, dbDeleted := false, notified := false }
  else
    let cell0 := env.cell?.getD (DownloadCellState.default now)
    if cell0.worker_status.is_busy then
      { response := .busy, cell? := some cell0,
        dbRead := false, dbDeleted := false, notified := false }
    else if ¬env.connOk then
      { response := .internalError, cell? := some cell0,
        dbRead := false, dbDeleted := false, notified := false }
    else if ¬env.selectOk then
      { response := .internalError, cell? := some cell0,
        dbRead := true, dbDeleted := false, notified := false }
    else
      match env.row? with
      | Option.none =>
          { response := .notFound, cell? := some cell0,
            dbRead := true, dbDeleted := false, notified := false }
      | Option.some entry =>
          let paths :=
            [entry.audio_path, entry.infojson_path, entry.stdout_log_path,
             entry.stderr_log_path, entry.system_log_path].reduceOption
          { response :=
              if env.deleteCount = 0 then .notFound
              else .ok (removeFiles env.removeOk paths),
            cell? := some (DownloadCellState.default now),
            dbRead := true, dbDeleted := true, notified := true }

/-- delete_transcode from src/routes.rs (lines 156-189): the same
handler over the stage-2 cell and row, with no extension restriction. -/
def delete_transcode (now : Nat) (env : DeleteEnv TranscodeState) :
    DeleteOutcome TranscodeState :=
  let cell0 := env.cell?.getD (TranscodeState.default now)
  if cell0.worker_status.is_busy then
    { response := .busy, cell? := some cell0,
      dbRead := false, dbDeleted := false, notified := false }
  else if ¬env.connOk then
    { response := .internalError, cell? := some cell0,
      dbRead := false, dbDeleted := false, notified := false }
  else if ¬env.selectOk then
    { response := .internalError, cell? := some cell0,
      dbRead := true, dbDeleted := false, notified := false }
  else
    match env.frow? with
    | Option.none =>
        { response := .notFound, cell? := some cell0,
          dbRead := true, dbDeleted := false, notified := false }
    | Option.some entry =>
        let paths :=
          [entry.audio_path, entry.stdout_log_path,
           entry.stderr_log_path, entry.system_log_path].reduceOption
        { response :=
            if env.deleteCount = 0 then .notFound
            else .ok (removeFiles env.removeOk paths),
          cell? := some (TranscodeState.default now),
          dbRead := true, dbDeleted := true, notified := true }

end Routes

namespace Protocol

open Database

/-!
Per-key interleaving models of the start/worker races.  Each step is one
critical section of the source (one region executed while holding the
cache lock or the cell lock), so steps of different threads can
interleave arbitrarily but a critical section is atomic, exactly as the
mutexes of the source guarantee.  Threads are counted rather than named:
`claimed` is the number of start calls that have claimed the cell (fast
path done, body not yet handed over), `bodies` is the number of worker
bodies enqueued or running whose terminal cache transition has not yet
happened.  A start call that merely observes a busy or finished cell
changes nothing and needs no step.
-/

/-- State of the per-key stage-2 system: the cell status of
src/worker_transcode.rs plus the two thread counters. -/
structure TSys where
  status : WorkerStatus
  claimed : Nat
  bodies : Nat
  deriving DecidableEq, Repr

/-- Initial stage-2 state: a defaulted cell and no activity. -/
def TSys.init : TSys := { status := .none, claimed := 0, bodies := 0 }

/-- Atomic steps of the stage-2 system, one per critical section of
src/worker_transcode.rs and src/routes.rs:
claim      — fast path lines 147-161: None/Failed becomes Queued;
rollback   — scope guard lines 162-175 after a database error;
hydrate r  — durable path lines 176-192: the stored row status r is
             published to the cell;
enqueue    — pool submission lines 196-242: the call hands over a body;
bodyRun    — body line 361-366: the cell is marked Running;
bodyDone t — pool closure lines 222-239: the body commits terminal t;
delReset   — delete_transcode lines 163-175: a non-busy cell is reset. -/
inductive TStep : TSys → TSys → Prop
  | claim (s : TSys) :
      s.status = .none ∨ s.status = .failed →
      TStep s { status := .queued, claimed := s.claimed + 1, bodies := s.bodies }
  | rollback (s : TSys) :
      1 ≤ s.claimed →
      TStep s { status := .none, claimed := s.claimed - 1, bodies := s.bodies }
  | hydrate (s : TSys) (r : WorkerStatus) :
      1 ≤ s.claimed →
      TStep s { status := r, claimed := s.claimed - 1, bodies := s.bodies }
  | enqueue (s : TSys) :
      1 ≤ s.claimed →
      TStep s { status := s.status, claimed := s.claimed - 1, bodies := s.bodies + 1 }
  | bodyRun (s : TSys) :
      1 ≤ s.bodies →
      TStep s { status := .running, claimed := s.claimed, bodies := s.bodies }
  | bodyDone (s : TSys) (t : WorkerStatus) :
      t = .finished ∨ t = .failed →
      1 ≤ s.bodies →
      TStep s { status := t, claimed := s.claimed, bodies := s.bodies - 1 }
  | delReset (s : TSys) :
      s.status.is_busy = false →
      TStep s { status := .none, claimed := s.claimed, bodies := s.bodies }

/-- Reachability of stage-2 states from the initial state. -/
inductive TReach : TSys → Prop
  | init : TReach TSys.init
  | step {s t : TSys} : TReach s → TStep s t → TReach t

/-- State of the per-key stage-1 system of src/worker_download.rs: the
cache entry (absent, or present with its is_finished flag) plus the two
thread counters. -/
structure DSys where
  cell : Option Bool
  claimed : Nat
  bodies : Nat
  deriving DecidableEq, Repr

/-- Initial stage-1 state: no cache entry and no activity. -/
def DSys.init : DSys := { cell := none, claimed := 0, bodies := 0 }

/-- Atomic steps of the stage-1 system, one per critical section of
src/worker_download.rs:
purge      — redownload block lines 97-111, allowed only while no
             worker is active (entry absent or finished);
claim      — fast path lines 112-124: an absent entry is claimed by
             inserting a default unfinished entry;
rollback   — scope guard lines 125-136 after a database error;
hydrate    — durable path lines 137-148: a stored Finished row marks
             the entry finished;
enqueue    — pool submission lines 152-159;
bodyFinish / bodyFail — commit guard lines 170-196: the body marks the
             entry finished or removes it. -/
inductive DStep : DSys → DSys → Prop
  | purge (s : DSys) :
      s.cell = none ∨ s.cell = some true →
      DStep s { cell := none, claimed := s.claimed, bodies := s.bodies }
  | claim (s : DSys) :
      s.cell = none →
      DStep s { cell := some false, claimed := s.claimed + 1, bodies := s.bodies }
  | rollback (s : DSys) :
      1 ≤ s.claimed →
      DStep s { cell := none, claimed := s.claimed - 1, bodies := s.bodies }
  | hydrate (s : DSys) :
      1 ≤ s.claimed →
      DStep s { cell := some true, claimed := s.claimed - 1, bodies := s.bodies }
  | enqueue (s : DSys) :
      1 ≤ s.claimed →
      DStep s { cell := s.cell, claimed := s.claimed - 1, bodies := s.bodies + 1 }
  | bodyFinish (s : DSys) :
      1 ≤ s.bodies →
      DStep s { cell := some true, claimed := s.claimed, bodies := s.bodies - 1 }
  | bodyFail (s : DSys) :
      1 ≤ s.bodies →
      DStep s { cell := none, claimed := s.claimed, bodies := s.bodies - 1 }

/-- Reachability of stage-1 states from the initial state. -/
inductive DReach : DSys → Prop
  | init : DReach DSys.init
  | step {s t : DSys} : DReach s → DStep s t → DReach t

/-- The inductive invariant of the stage-2 system: at most one start
call or body owns the key, and while one does the cell is busy. -/
def TInv (s : TSys) : Prop :=
  s.claimed + s.bodies ≤ 1 ∧ (1 ≤ s.claimed + s.bodies → s.status.is_busy = true)

/-- The inductive invariant of the stage-1 system: at most one start
call or body owns the key, and while one does the entry is present and
unfinished. -/
def DInv (s : DSys) : Prop :=
  s.claimed + s.bodies ≤ 1 ∧ (1 ≤ s.claimed + s.bodies → s.cell = some false)

end Protocol

namespace Protocol

open Database

/-- The stage-2 invariant holds initially. -/
lemma TInv_init : TInv TSys.init := by
  constructor
  · simp [TSys.init]
  · intro h
    simp [TSys.init] at h

/-- The stage-2 invariant is preserved by every step. -/
lemma TInv_step {s t : TSys} (hst : TStep s t) (hinv : TInv s) : TInv t := by
  obtain ⟨hcount, hbusy⟩ := hinv
  cases hst with
  | claim h =>
      have hnb : s.status.is_busy = false := by
        rcases h with h | h <;> simp [h, WorkerStatus.is_busy]
      have hzero : s.claimed + s.bodies = 0 := by
        by_contra hne
        have h1 : 1 ≤ s.claimed + s.bodies := Nat.one_le_iff_ne_zero.mpr hne
        have h2 := hbusy h1
        rw [hnb] at h2
        exact Bool.false_ne_true h2
      exact ⟨by simp; omega, fun _ => by simp [WorkerStatus.is_busy]⟩
  | rollback h =>
      exact ⟨by simp; omega, fun hc => by simp at hc; omega⟩
  | hydrate r h =>
      exact ⟨by simp; omega, fun hc => by simp at hc; omega⟩
  | enqueue h =>
      exact ⟨by simp; omega, fun _ => hbusy (by omega)⟩
  | bodyRun h =>
      exact ⟨by simpa using hcount, fun _ => by simp [WorkerStatus.is_busy]⟩
  | bodyDone tstat ht h =>
      exact ⟨by simp; omega, fun hc => by simp at hc; omega⟩
  | delReset h =>
      have hzero : s.claimed + s.bodies = 0 := by
        by_contra hne
        have h1 : 1 ≤ s.claimed + s.bodies := Nat.one_le_iff_ne_zero.mpr hne
        have h2 := hbusy h1
        rw [h] at h2
        exact Bool.false_ne_true h2
      exact ⟨by simp; omega, fun hc => by simp at hc; omega⟩

/-- Every reachable stage-2 state satisfies the invariant. -/
lemma TInv_reach {s : TSys} (h : TReach s) : TInv s := by
  induction h with
  | init => exact TInv_init
  | step _ hst ih => exact TInv_step hst ih

/-- The stage-1 invariant holds initially. -/
lemma DInv_init : DInv DSys.init := by
  constructor
  · simp [DSys.init]
  · intro h
    simp [DSys.init] at h

/-- The stage-1 invariant is preserved by every step. -/
lemma DInv_step {s t : DSys} (hst : DStep s t) (hinv : DInv s) : DInv t := by
  obtain ⟨hcount, hcell⟩ := hinv
  cases hst with
  | purge h =>
      have hzero : s.claimed + s.bodies = 0 := by
        by_contra hne
        have h1 : 1 ≤ s.claimed + s.bodies := Nat.one_le_iff_ne_zero.mpr hne
        have h2 := hcell h1
        rcases h with h | h <;> rw [h] at h2 <;> simp at h2
      exact ⟨by simp; omega, fun hc => by simp at hc; omega⟩
  | claim h =>
      have hzero : s.claimed + s.bodies = 0 := by
        by_contra hne
        have h1 : 1 ≤ s.claimed + s.bodies := Nat.one_le_iff_ne_zero.mpr hne
        have h2 := hcell h1
        rw [h] at h2
        exact Option.noConfusion h2
      exact ⟨by simp; omega, fun _ => rfl⟩
  | rollback h =>
      exact ⟨by simp; omega, fun hc => by simp at hc; omega⟩
  | hydrate h =>
      exact ⟨by simp; omega, fun hc => by simp at hc; omega⟩
  | enqueue h =>
      exact ⟨by simp; omega, fun _ => hcell (by omega)⟩
  | bodyFinish h =>
      exact ⟨by simp; omega, fun hc => by simp at hc; omega⟩
  | bodyFail h =>
      exact ⟨by simp; omega, fun hc => by simp at hc; omega⟩

/-- Every reachable stage-1 state satisfies the invariant. -/
lemma DInv_reach {s : DSys} (h : DReach s) : DInv s := by
  induction h with
  | init => exact DInv_init
  | step _ hst ih => exact DInv_step hst ih

end Protocol

namespace Chars

/-- splitOnColon always yields at least one piece. -/
lemma splitOnColon_ne_nil (cs : List Char) : splitOnColon cs ≠ [] := by
  induction cs with
  | nil => simp [splitOnColon]
  | cons c rest ih =>
      by_cases h : c = ':'
      · simp [splitOnColon, h]
      · simp only [splitOnColon, if_neg h]
        cases hs : splitOnColon rest with
        | nil => simp
        | cons p ps => simp

/-- Splitting distributes over a separator between two fragments. -/
lemma splitOnColon_append (a b : List Char) :
    splitOnColon (a ++ ':' :: b) = splitOnColon a ++ splitOnColon b := by
  induction a with
  | nil => simp [splitOnColon]
  | cons c rest ih =>
      by_cases h : c = ':'
      · simp [splitOnColon, h, ih]
      · cases hs : splitOnColon rest with
        | nil => exact absurd hs (splitOnColon_ne_nil rest)
        | cons p ps =>
            simp only [List.cons_append, splitOnColon, if_neg h, List.append_eq]
            rw [ih, hs]
            simp

/-- dropWhile is the identity when the head fails the test. -/
lemma dropWhile_head_false {p : Char → Bool} {l : List Char} {d : Char}
    (h : p (l.headD d) = false) : l.dropWhile p = l := by
  cases l with
  | nil => rfl
  | cons c rest => simp only [List.headD_cons] at h; simp [List.dropWhile_cons, h]

/-- takeWhile is the identity on a list all of whose elements pass. -/
lemma takeWhile_all {p : Char → Bool} : ∀ {l : List Char},
    l.all p = true → l.takeWhile p = l := by
  intro l
  induction l with
  | nil => intro _; rfl
  | cons c rest ih =>
      intro h
      simp only [List.all_cons, Bool.and_eq_true] at h
      simp [List.takeWhile_cons, h.1, ih h.2]

/-- takeWhile passes over a fully-passing fragment. -/
lemma takeWhile_append_all {p : Char → Bool} {l : List Char} (r : List Char)
    (h : l.all p = true) : (l ++ r).takeWhile p = l ++ r.takeWhile p := by
  induction l with
  | nil => rfl
  | cons c rest ih =>
      simp only [List.all_cons, Bool.and_eq_true] at h
      simp [List.takeWhile_cons, h.1, ih h.2]

/-- dropWhile skips a fully-passing fragment. -/
lemma dropWhile_append_all {p : Char → Bool} {l : List Char} (r : List Char)
    (h : l.all p = true) : (l ++ r).dropWhile p = r.dropWhile p := by
  induction l with
  | nil => rfl
  | cons c rest ih =>
      simp only [List.all_cons, Bool.and_eq_true] at h
      simp [List.dropWhile_cons, h.1, ih h.2]

/-- trimRight distributes over an append whose right part does not trim
to nothing. -/
lemma trimRight_append (a b : List Char) (h : trimRight b ≠ []) :
    trimRight (a ++ b) = a ++ trimRight b := by
  induction a with
  | nil => rfl
  | cons c rest ih =>
      cases hb : rest ++ trimRight b with
      | nil =>
          rcases List.append_eq_nil.mp hb with ⟨_, h2⟩
          exact absurd h2 h
      | cons x xs =>
          simp only [List.cons_append, trimRight, List.append_eq]
          rw [ih, hb]

/-- trimRight is the identity when the last character is not whitespace. -/
lemma trimRight_last : ∀ (cs : List Char), cs ≠ [] →
    isRustWs (lastCharD 'x' cs) = false → trimRight cs = cs := by
  intro cs
  induction cs with
  | nil => intro h; exact absurd rfl h
  | cons c rest ih =>
      intro _ hlast
      cases rest with
      | nil =>
          simp only [lastCharD] at hlast
          simp [trimRight, hlast]
      | cons d ds =>
          simp only [lastCharD] at hlast
          have hr : trimRight (d :: ds) = d :: ds := ih (by simp) hlast
          show trimRight (c :: d :: ds) = c :: d :: ds
          rw [trimRight, hr]

end Chars

namespace Ytdlp

open Chars

/-- A matcher success at the first position makes the search succeed
immediately (leftmost semantics). -/
lemma searchSome_head {A : Type} {f : List Char → Option A} {cs : List Char} {r : A}
    (h : f cs = some r) : searchSome f cs = some r := by
  cases cs with
  | nil => simpa [searchSome] using h
  | cons c rest => simp [searchSome, h]

/-- The literal head of the spec's usage-error production as emitted by
the source regex: the binary name (spelled `yt-dlp.exe` with a regex
dot), a colon, one space, `error:`, one space. -/
def usageLit : List Char :=
  ['y', 't', '-', 'd', 'l', 'p', '.', 'e', 'x', 'e', ':', ' ',
   'e', 'r', 'r', 'o', 'r', ':', ' ']

/-- The literal head of the missing-content production. -/
def missingLit : List Char :=
  ['E', 'R', 'R', 'O', 'R', ':', ' ',
   '[', 'y', 'o', 'u', 't', 'u', 'b', 'e', ']', ' ']

/-- The literal tail of the missing-content production. -/
def missingTail : List Char :=
  [':', ' ', 'V', 'i', 'd', 'e', 'o', ' ',
   'u', 'n', 'a', 'v', 'a', 'i', 'l', 'a', 'b', 'l', 'e']

end Ytdlp

section ClaimC9

/-- Claim C9 counterexample: the claim says every recognized byte-unit
suffix converts with a decimal multiplier (KiB to 1000 bytes), but the
ffmpeg progress parser recognizes the suffix `KiB` and converts it with
the binary multiplier 1024. -/
theorem claim_c9_counterexample :
    Ffmpeg.SizeBytes.try_from ['K', 'i', 'B'] = some .kib ∧
    Ffmpeg.SizeBytes.to_bytes .kib = 1024 ∧ ¬(1024 = 1000) := by
  decide

/-- Claim C9 (amended): the ytdlp progress parser converts KiB, MiB and
GiB with decimal multipliers (1000, 10^6, 10^9); the ffmpeg progress
parser converts the same iB suffixes with binary multipliers (1024,
1024^2, 1024^3) and only its KB/kB, MB, GB suffixes with decimal
multipliers; the bit units kbits/kb, Mbits/Mb, Gbits/Gb all use decimal
multipliers (1000, 10^6, 10^9) in both the long and the short form. -/
theorem claim_c9_units :
    Ytdlp.SizeBytes.to_bytes .kib = 1000 ∧
    Ytdlp.SizeBytes.to_bytes .mib = 1000000 ∧
    Ytdlp.SizeBytes.to_bytes .gib = 1000000000 ∧
    Ytdlp.SizeBytes.try_from ['K', 'i', 'B'] = some .kib ∧
    Ffmpeg.SizeBytes.to_bytes .kib = 1024 ∧
    Ffmpeg.SizeBytes.to_bytes .mib = 1048576 ∧
    Ffmpeg.SizeBytes.to_bytes .gib = 1073741824 ∧
    Ffmpeg.SizeBytes.to_bytes .kb = 1000 ∧
    Ffmpeg.SizeBytes.to_bytes .mb = 1000000 ∧
    Ffmpeg.SizeBytes.to_bytes .gb = 1000000000 ∧
    Ffmpeg.SizeBytes.try_from ['K', 'i', 'B'] = some .kib ∧
    Ffmpeg.SizeBits.try_from_long ['k', 'b', 'i', 't', 's'] = some .kb ∧
    Ffmpeg.SizeBits.try_from_short ['k', 'b'] = some .kb ∧
    Ffmpeg.SizeBits.to_bits .bits = 1 ∧
    Ffmpeg.SizeBits.to_bits .kb = 1000 ∧
    Ffmpeg.SizeBits.to_bits .mb = 1000000 ∧
    Ffmpeg.SizeBits.to_bits .gb = 1000000000 := by
  decide

end ClaimC9

section ClaimC10

open Chars

/-- Claim C10: on an input with more than four colon-separated
components, Eta::try_from_str and Time::try_from_str do not reject the
input; they read only the four least significant components and silently
ignore every more significant one, so prefixing any extra components
(`junk ++ ":"`) in front of an input that already has at least four
components never changes the result. -/
theorem claim_c10_last_four (junk s : List Char)
    (h : 4 ≤ (splitOnColon s).length) :
    Ytdlp.Eta.try_from_str (junk ++ ':' :: s) = Ytdlp.Eta.try_from_str s ∧
    Ffmpeg.Time.try_from_str (junk ++ ':' :: s) = Ffmpeg.Time.try_from_str s := by
  have key : ∀ i, i < 4 →
      ((splitOnColon (junk ++ ':' :: s)).reverse)[i]? =
        ((splitOnColon s).reverse)[i]? := by
    intro i hi
    rw [splitOnColon_append, List.reverse_append]
    exact List.getElem?_append_left (by simpa using lt_of_lt_of_le hi h)
  constructor
  · simp only [Ytdlp.Eta.try_from_str]
    rw [key 0 (by omega), key 1 (by omega), key 2 (by omega), key 3 (by omega)]
  · simp only [Ffmpeg.Time.try_from_str]
    rw [key 0 (by omega), key 1 (by omega), key 2 (by omega), key 3 (by omega)]

/-- Witness for claim C10 at a concrete five-component input. -/
theorem claim_c10_last_four_witness :
    Ytdlp.Eta.try_from_str ("9:1:2:3:4".toList) = Ytdlp.Eta.try_from_str ("1:2:3:4".toList) ∧
    Ffmpeg.Time.try_from_str ("9:1:2:3:4".toList) = Ffmpeg.Time.try_from_str ("1:2:3:4".toList) := by
  have h := claim_c10_last_four ("9".toList) ("1:2:3:4".toList) (by decide)
  exact h

end ClaimC10

section ClaimC2

open Protocol

/-- Claim C2: per key, at most one worker body exists between its
enqueue and its terminal cache transition, in every state reachable by
any interleaving of concurrent start calls, worker bodies and delete
resets — for the stage-2 (transcode) system and for the stage-1
(download) system alike.  Duplicate concurrent requests therefore never
produce a second concurrent worker body (and hence no second
subprocess, as each body spawns at most one child). -/
theorem claim_c2_at_most_one_body :
    (∀ s : TSys, TReach s → s.bodies ≤ 1) ∧
    (∀ s : DSys, DReach s → s.bodies ≤ 1) := by
  constructor
  · intro s hs
    have h := (TInv_reach hs).1
    omega
  · intro s hs
    have h := (DInv_reach hs).1
    omega

/-- Witness for claim C2: both initial states are reachable and satisfy
the bound. -/
theorem claim_c2_at_most_one_body_witness :
    TSys.init.bodies ≤ 1 ∧ DSys.init.bodies ≤ 1 :=
  ⟨claim_c2_at_most_one_body.1 TSys.init TReach.init,
   claim_c2_at_most_one_body.2 DSys.init DReach.init⟩

end ClaimC2

section ClaimC7

open Database Routes WorkerTranscode

/-- Claim C7: when the cached cell is busy (Queued or Running), both
delete handlers answer the Busy variant, leave the cell exactly as it
was, perform no index read and no index delete, and broadcast nothing. -/
theorem claim_c7_delete_busy :
    (∀ (now : Nat) (env : DeleteEnv DownloadCellState) (cell : DownloadCellState),
       env.audioExt = .m4a → env.cell? = some cell → cell.worker_status.is_busy = true →
       delete_download now env =
         { response := .busy, cell? := some cell,
           dbRead := false, dbDeleted := false, notified := false }) ∧
    (∀ (now : Nat) (env : DeleteEnv TranscodeState) (cell : TranscodeState),
       env.cell? = some cell → cell.worker_status.is_busy = true →
       delete_transcode now env =
         { response := .busy, cell? := some cell,
           dbRead := false, dbDeleted := false, notified := false }) := by
  constructor
  · intro now env cell hext hcell hbusy
    simp [delete_download, hext, hcell, hbusy]
  · intro now env cell hcell hbusy
    simp [delete_transcode, hcell, hbusy]

/-- Witness for claim C7 at concrete busy cells. -/
theorem claim_c7_delete_busy_witness :
    delete_download 0
        { audioExt := .m4a,
          cell? := some { DownloadCellState.default 0 with worker_status := .running },
          connOk := true, selectOk := true, row? := none, frow? := none,
          deleteCount := 1, removeOk := fun _ => true } =
      { response := .busy,
        cell? := some { DownloadCellState.default 0 with worker_status := .running },
        dbRead := false, dbDeleted := false, notified := false } ∧
    delete_transcode 0
        { audioExt := .mp3,
          cell? := some { TranscodeState.default 0 with worker_status := .queued },
          connOk := true, selectOk := true, row? := none, frow? := none,
          deleteCount := 1, removeOk := fun _ => true } =
      { response := .busy,
        cell? := some { TranscodeState.default 0 with worker_status := .queued },
        dbRead := false, dbDeleted := false, notified := false } :=
  ⟨claim_c7_delete_busy.1 0 _ _ rfl rfl rfl,
   claim_c7_delete_busy.2 0 _ _ rfl rfl⟩

end ClaimC7

section ClaimC1

open Database WorkerTranscode WorkerDownload

/-- The concrete cold-start environment used to refute claim C1 on the
download side: no cache entry, no index row, healthy database. -/
def c1ColdEnv : DownloadStartEnv :=
  { isRedownload := false, cell? := none, connOk := true, deleteOk := true,
    row := none, insertOk := true }

/-- Claim C1 counterexample: the claim says a start call that finds the
cell in None transitions it to Queued (broadcasting the change).  For
try_start_download_worker the stage-1 cache of src/worker_download.rs
has no Queued status and no condition variable at all: claiming the cold
cell inserts a default entry that the fast path itself reports as
Running, and no broadcast happens on any path (notified is false by
construction, the cache being a plain Mutex-HashMap). -/
theorem claim_c1_counterexample :
    downloadObservedStatus (try_start_download_worker 0 c1ColdEnv).cell? = .running ∧
    (try_start_download_worker 0 c1ColdEnv).notified = false ∧
    WorkerStatus.running ≠ WorkerStatus.queued := by
  decide

/-- Claim C1 (amended): try_start_transcode_worker behaves exactly as
claimed — a Queued/Running/Finished cell is returned with no cell write,
no index access, no enqueue and no broadcast, while a None/Failed cell is
reset to a fresh Queued state with one broadcast and, on the nominal path
(healthy database, no hydratable row), the worker body is enqueued with
Queued returned.  try_start_download_worker has no Queued or Failed cache
status and no condition variable: a present entry is returned as Running
or Finished by its is_finished flag with no state change, and an absent
entry is claimed by inserting a default (running-observed) entry before
the body is enqueued with Started returned, with no broadcast. -/
theorem claim_c1_start_fast_path :
    (∀ (now : Nat) (cell : TranscodeState) (env : TranscodeStartEnv),
       (cell.worker_status = .queued ∨ cell.worker_status = .running ∨
         cell.worker_status = .finished) →
       try_start_transcode_worker now (some cell) env =
         { result := .ok cell.worker_status, cell := cell, notifies := 0,
           dbSelected := false, dbInserted := false, enqueued := false }) ∧
    (∀ (now : Nat) (cell? : Option TranscodeState) (env : TranscodeStartEnv),
       ((cell?.getD (TranscodeState.default now)).worker_status = .none ∨
         (cell?.getD (TranscodeState.default now)).worker_status = .failed) →
       env.connOk = true → env.selectOk = true → env.insertOk = true →
       (env.row = none ∨ ∃ r, env.row = some r ∧ r.audio_path = none) →
       try_start_transcode_worker now cell? env =
         { result := .ok .queued,
           cell := { TranscodeState.default now with worker_status := .queued },
           notifies := 1, dbSelected := true, dbInserted := true, enqueued := true }) ∧
    (∀ (now : Nat) (env : DownloadStartEnv) (st : DownloadState),
       env.isRedownload = false → env.cell? = some st →
       try_start_download_worker now env =
         { result := .ok (if st.is_finished then .finished else .running),
           cell? := some st,
           dbDeleted := false, dbInserted := false, enqueued := false,
           notified := false }) ∧
    (∀ (now : Nat) (env : DownloadStartEnv),
       env.isRedownload = false → env.cell? = none →
       env.connOk = true → env.insertOk = true →
       (env.row = none ∨ ∃ r, env.row = some r ∧ r.status ≠ .finished) →
       try_start_download_worker now env =
         { result := .ok .started, cell? := some (DownloadState.default now),
           dbDeleted := false, dbInserted := true, enqueued := true,
           notified := false }) := by
  refine ⟨?_, ?_, ?_, ?_⟩
  · intro now cell env h
    rcases h with h | h | h <;>
      simp [try_start_transcode_worker, h]
  · intro now cell? env hst hconn hsel hins hrow
    rcases hrow with hrow | ⟨r, hrow, hap⟩
    · rcases hst with hst | hst <;>
        simp [try_start_transcode_worker, hst, hconn, hsel, hins, hrow]
    · rcases hst with hst | hst <;>
        simp [try_start_transcode_worker, hst, hconn, hsel, hins, hrow, hap]
  · intro now env st hred hcell
    simp [try_start_download_worker, hred, hcell]
  · intro now env hred hcell hconn hins hrow
    rcases hrow with hrow | ⟨r, hrow, hst⟩
    · simp [try_start_download_worker, downloadColdPath, downloadInsertPath,
        hred, hcell, hconn, hins, hrow]
    · simp [try_start_download_worker, downloadColdPath, downloadInsertPath,
        hred, hcell, hconn, hins, hrow, hst]

/-- Witness for claim C1 at concrete cells and environments. -/
theorem claim_c1_start_fast_path_witness :
    try_start_transcode_worker 0
        (some { TranscodeState.default 0 with worker_status := .running })
        { connOk := true, selectOk := true, row := none, insertOk := true } =
      { result := .ok .running,
        cell := { TranscodeState.default 0 with worker_status := .running },
        notifies := 0, dbSelected := false, dbInserted := false, enqueued := false } ∧
    try_start_transcode_worker 0
        (some { TranscodeState.default 0 with worker_status := .failed })
        { connOk := true, selectOk := true, row := none, insertOk := true } =
      { result := .ok .queued,
        cell := { TranscodeState.default 0 with worker_status := .queued },
        notifies := 1, dbSelected := true, dbInserted := true, enqueued := true } ∧
    try_start_download_worker 0
        { c1ColdEnv with cell? := some (DownloadState.default 0) } =
      { result := .ok .running, cell? := some (DownloadState.default 0),
        dbDeleted := false, dbInserted := false, enqueued := false,
        notified := false } ∧
    try_start_download_worker 0 c1ColdEnv =
      { result := .ok .started, cell? := some (DownloadState.default 0),
        dbDeleted := false, dbInserted := true, enqueued := true,
        notified := false } := by
  refine ⟨?_, ?_, ?_, ?_⟩
  · exact claim_c1_start_fast_path.1 0 _ _ (Or.inr (Or.inl rfl))
  · exact claim_c1_start_fast_path.2.1 0 _ _ (Or.inr rfl) rfl rfl rfl (Or.inl rfl)
  · have h := claim_c1_start_fast_path.2.2.1 0
      { c1ColdEnv with cell? := some (DownloadState.default 0) }
      (DownloadState.default 0) rfl rfl
    simpa using h
  · exact claim_c1_start_fast_path.2.2.2 0 c1ColdEnv rfl rfl rfl rfl (Or.inl rfl)

end ClaimC1

section ClaimC4

open Database WorkerTranscode WorkerDownload

/-- The concrete environment refuting claim C4: the stored download row
has status Finished but a NULL audio_path (and the function has no
access to the disk at all). -/
def c4Env : DownloadStartEnv :=
  { isRedownload := false, cell? := none, connOk := true, deleteOk := true,
    row := some { status := .finished, unix_time := 0, infojson_path := none,
                  stdout_log_path := none, stderr_log_path := none,
                  system_log_path := none, audio_path := none },
    insertOk := true }

/-- Claim C4 counterexample: the claim says a row with a missing
audio_path must not be hydrated to Finished, yet try_start_download_worker
publishes Finished to the cache from a row whose audio_path is NULL —
the durable path reads only the status column and never consults the
audio_path or the filesystem. -/
theorem claim_c4_counterexample :
    (try_start_download_worker 0 c4Env).result = .ok .finished ∧
    (try_start_download_worker 0 c4Env).cell? =
      some { DownloadState.default 0 with is_finished := true } ∧
    (try_start_download_worker 0 c4Env).enqueued = false := by
  decide

/-- Claim C4 (amended): the download start hydrates the cache to
Finished exactly when the stored row status is Finished, regardless of
the row's audio_path and without consulting the disk; the transcode
start hydrates whenever the stored row has a non-null audio_path,
publishing the row's stored status (whatever it is) with file_cached
set, again without checking that the file exists (the check is an
explicit TODO in the source). -/
theorem claim_c4_hydration :
    (∀ (now : Nat) (cell? : Option TranscodeState) (env : TranscodeStartEnv)
        (entry : FfmpegRow) (p : List Char),
       ((cell?.getD (TranscodeState.default now)).worker_status = .none ∨
         (cell?.getD (TranscodeState.default now)).worker_status = .failed) →
       env.connOk = true → env.selectOk = true → env.row = some entry →
       entry.audio_path = some p →
       try_start_transcode_worker now cell? env =
         { result := .ok entry.status,
           cell := { TranscodeState.default now with
                       worker_status := entry.status, file_cached := true },
           notifies := 2, dbSelected := true, dbInserted := false,
           enqueued := false }) ∧
    (∀ (now : Nat) (env : DownloadStartEnv) (r : YtdlpRow),
       env.isRedownload = false → env.cell? = none → env.connOk = true →
       env.row = some r → r.status = .finished →
       try_start_download_worker now env =
         { result := .ok .finished,
           cell? := some { DownloadState.default now with is_finished := true },
           dbDeleted := false, dbInserted := false, enqueued := false,
           notified := false }) := by
  constructor
  · intro now cell? env entry p hst hconn hsel hrow hap
    rcases hst with hst | hst <;>
      simp [try_start_transcode_worker, hst, hconn, hsel, hrow, hap]
  · intro now env r hred hcell hconn hrow hst
    simp [try_start_download_worker, downloadColdPath, hred, hcell, hconn, hrow, hst]

/-- Witness for claim C4 at concrete rows. -/
theorem claim_c4_hydration_witness :
    try_start_transcode_worker 0 none
        { connOk := true, selectOk := true,
          row := some { status := .failed, unix_time := 0, stdout_log_path := none,
                        stderr_log_path := none, system_log_path := none,
                        audio_path := some ['p'] },
          insertOk := true } =
      { result := .ok .failed,
        cell := { TranscodeState.default 0 with
                    worker_status := .failed, file_cached := true },
        notifies := 2, dbSelected := true, dbInserted := false,
        enqueued := false } ∧
    try_start_download_worker 0 c4Env =
      { result := .ok .finished,
        cell? := some { DownloadState.default 0 with is_finished := true },
        dbDeleted := false, dbInserted := false, enqueued := false,
        notified := false } :=
  ⟨claim_c4_hydration.1 0 none _ _ ['p'] (Or.inl rfl) rfl rfl rfl rfl,
   claim_c4_hydration.2 0 c4Env _ rfl rfl rfl rfl rfl⟩

end ClaimC4

section ClaimC5

open Database WorkerTranscode WorkerDownload

/-- The concrete environment refuting claim C5 on the download side: a
cold start whose insert_worker_entry fails. -/
def c5Env : DownloadStartEnv :=
  { isRedownload := false, cell? := none, connOk := true, deleteOk := true,
    row := none, insertOk := false }

/-- Claim C5 counterexample: the claim says the scope guard restores the
cell to its default None state *and broadcasts*.  On the download side
the guard does remove the claimed entry, but no broadcast exists on any
path of src/worker_download.rs — its cache has no condition variable —
so the broadcasting half of the claim is false. -/
theorem claim_c5_counterexample :
    (try_start_download_worker 0 c5Env).result = .error .databaseInsert ∧
    (try_start_download_worker 0 c5Env).cell? = none ∧
    (try_start_download_worker 0 c5Env).notified = false ∧
    (false ≠ true) := by
  decide

/-- Claim C5 (amended): whenever a start call returns an error, the
scope guard has rolled the key back — the transcode cell is reset to the
default None state with a broadcast (two notifies in total: the claim
transition and the rollback) and no body was enqueued; the download
entry is removed from the cache (its absent default state) with no body
enqueued and, the stage-1 cache having no condition variable, no
broadcast. -/
theorem claim_c5_rollback :
    (∀ (now : Nat) (cell? : Option TranscodeState) (env : TranscodeStartEnv)
        (e : TranscodeStartError),
       (try_start_transcode_worker now cell? env).result = .error e →
       (try_start_transcode_worker now cell? env).cell = TranscodeState.default now ∧
       (try_start_transcode_worker now cell? env).notifies = 2 ∧
       (try_start_transcode_worker now cell? env).enqueued = false) ∧
    (∀ (now : Nat) (env : DownloadStartEnv) (e : DownloadStartError),
       (try_start_download_worker now env).result = .error e →
       (try_start_download_worker now env).cell? = none ∧
       (try_start_download_worker now env).enqueued = false ∧
       (try_start_download_worker now env).notified = false) := by
  constructor
  · intro now cell? env e h
    obtain ⟨connOk, selectOk, row, insertOk⟩ := env
    rcases hs : (cell?.getD (TranscodeState.default now)).worker_status <;>
      cases connOk <;> cases selectOk <;> cases insertOk <;>
        rcases row with _ | entry <;>
          simp_all [try_start_transcode_worker] <;>
            rcases hap : entry.audio_path with _ | p <;>
              simp_all
  · intro now env e h
    obtain ⟨isRedownload, cell?, connOk, deleteOk, row, insertOk⟩ := env
    cases isRedownload <;> cases connOk <;> cases deleteOk <;> cases insertOk <;>
      rcases cell? with _ | st <;>
        rcases row with _ | r <;>
          simp_all [try_start_download_worker, downloadColdPath, downloadInsertPath] <;>
            split at h <;> simp_all

/-- Witness for claim C5 at concrete failing environments. -/
theorem claim_c5_rollback_witness :
    ((try_start_transcode_worker 0 none
        { connOk := false, selectOk := true, row := none, insertOk := true }).cell =
       TranscodeState.default 0 ∧
     (try_start_transcode_worker 0 none
        { connOk := false, selectOk := true, row := none, insertOk := true }).notifies = 2 ∧
     (try_start_transcode_worker 0 none
        { connOk := false, selectOk := true, row := none, insertOk := true }).enqueued = false) ∧
    ((try_start_download_worker 0 c5Env).cell? = none ∧
     (try_start_download_worker 0 c5Env).enqueued = false ∧
     (try_start_download_worker 0 c5Env).notified = false) :=
  ⟨claim_c5_rollback.1 0 none _ .databaseConnection (by decide),
   claim_c5_rollback.2 0 c5Env .databaseInsert (by decide)⟩

end ClaimC5

section ClaimC3

open Database WorkerTranscode

/-- A finished wait loop observed Finished at a first decisive position,
with only None/Queued/Running observations before it. -/
lemma waitLoop_proceed_finished :
    ∀ (obs : List WorkerStatus), waitDownloadLoop obs = .proceed →
      ∃ i : Nat, obs[i]? = some WorkerStatus.finished ∧
        ∀ j : Nat, j < i → ∀ st : WorkerStatus, obs[j]? = some st →
          st ≠ WorkerStatus.finished ∧ st ≠ WorkerStatus.failed := by
  intro obs
  induction obs with
  | nil => intro h; simp [waitDownloadLoop] at h
  | cons st rest ih =>
      intro h
      cases st with
      | failed => simp [waitDownloadLoop] at h
      | finished =>
          refine ⟨0, by simp, ?_⟩
          intro j hj
          omega
      | none =>
          obtain ⟨i, hi, hj⟩ := ih (by simpa [waitDownloadLoop] using h)
          refine ⟨i + 1, by simpa using hi, ?_⟩
          intro j hjlt stj hstj
          cases j with
          | zero =>
              simp at hstj
              subst hstj
              exact ⟨by simp, by simp⟩
          | succ k =>
              simp at hstj
              exact hj k (by omega) stj hstj
      | queued =>
          obtain ⟨i, hi, hj⟩ := ih (by simpa [waitDownloadLoop] using h)
          refine ⟨i + 1, by simpa using hi, ?_⟩
          intro j hjlt stj hstj
          cases j with
          | zero =>
              simp at hstj
              subst hstj
              exact ⟨by simp, by simp⟩
          | succ k =>
              simp at hstj
              exact hj k (by omega) stj hstj
      | running =>
          obtain ⟨i, hi, hj⟩ := ih (by simpa [waitDownloadLoop] using h)
          refine ⟨i + 1, by simpa using hi, ?_⟩
          intro j hjlt stj hstj
          cases j with
          | zero =>
              simp at hstj
              subst hstj
              exact ⟨by simp, by simp⟩
          | succ k =>
              simp at hstj
              exact hj k (by omega) stj hstj

/-- Claim C3: the transcode worker body keeps waiting while the download
cell reads None, Queued or Running (consuming such an observation leaves
the body outcome unchanged); an observed Failed makes it return the
DownloadWorkerFailed error without spawning; and it reaches the
transcoder spawn only after an observation equal to Finished (preceded
by no Finished and no Failed observation). -/
theorem claim_c3_wait_for_download :
    (∀ (env : TranscodeBodyEnv) (st : WorkerStatus) (rest : List WorkerStatus),
       (st = .none ∨ st = .queued ∨ st = .running) →
       enqueue_transcode_worker_until_spawn { env with obs := st :: rest } =
         enqueue_transcode_worker_until_spawn { env with obs := rest }) ∧
    (∀ env : TranscodeBodyEnv, waitDownloadLoop env.obs = .abortFailed →
       enqueue_transcode_worker_until_spawn env = .errored .downloadWorkerFailed) ∧
    (∀ (env : TranscodeBodyEnv) (p : List Char),
       enqueue_transcode_worker_until_spawn env = .spawnedProcess p →
       ∃ i : Nat, env.obs[i]? = some WorkerStatus.finished ∧
         ∀ j : Nat, j < i → ∀ st : WorkerStatus, env.obs[j]? = some st →
           st ≠ WorkerStatus.finished ∧ st ≠ WorkerStatus.failed) := by
  refine ⟨?_, ?_, ?_⟩
  · intro env st rest h
    rcases h with h | h | h <;>
      subst h <;>
        simp [enqueue_transcode_worker_until_spawn, waitDownloadLoop]
  · intro env h
    simp [enqueue_transcode_worker_until_spawn, h]
  · intro env p h
    cases hw : waitDownloadLoop env.obs with
    | stillWaiting => simp [enqueue_transcode_worker_until_spawn, hw] at h
    | abortFailed => simp [enqueue_transcode_worker_until_spawn, hw] at h
    | proceed => exact waitLoop_proceed_finished env.obs hw

/-- Witness for claim C3 at concrete observation sequences. -/
theorem claim_c3_wait_for_download_witness :
    (enqueue_transcode_worker_until_spawn
        { obs := [.queued, .running, .failed], connOk := true, selectOk := true,
          row := none, sourceExists := true } =
      enqueue_transcode_worker_until_spawn
        { obs := [.running, .failed], connOk := true, selectOk := true,
          row := none, sourceExists := true }) ∧
    (enqueue_transcode_worker_until_spawn
        { obs := [.running, .failed], connOk := true, selectOk := true,
          row := none, sourceExists := true } =
      .errored .downloadWorkerFailed) ∧
    (∃ i : Nat,
       ([WorkerStatus.running, .finished])[i]? = some WorkerStatus.finished ∧
       ∀ j : Nat, j < i → ∀ st : WorkerStatus,
         ([WorkerStatus.running, .finished])[j]? = some st →
           st ≠ WorkerStatus.finished ∧ st ≠ WorkerStatus.failed) := by
  refine ⟨?_, ?_, ?_⟩
  · exact claim_c3_wait_for_download.1
      { obs := [.running, .failed], connOk := true, selectOk := true,
        row := none, sourceExists := true } .queued [.running, .failed]
      (Or.inr (Or.inl rfl))
  · exact claim_c3_wait_for_download.2.1
      { obs := [.running, .failed], connOk := true, selectOk := true,
        row := none, sourceExists := true } (by decide)
  · exact claim_c3_wait_for_download.2.2
      { obs := [.running, .finished], connOk := true, selectOk := true,
        row := some { status := .finished, unix_time := 0, infojson_path := none,
                      stdout_log_path := none, stderr_log_path := none,
                      system_log_path := none, audio_path := some ['p'] },
        sourceExists := true } ['p'] (by decide)

end ClaimC3

section ClaimC6

open Database WorkerDownload

/-- The stderr scraper only ever surfaces the two fatal sentinels. -/
lemma stderrLoop_error_shape :
    ∀ (lines : List (List Char)) (e : DownloadError),
      stderrThreadLoop lines = .error e →
      e = .invalidVideoId ∨ ∃ m, e = .usageError m := by
  intro lines
  induction lines with
  | nil => intro e h; simp [stderrThreadLoop] at h
  | cons line rest ih =>
      intro e h
      rcases hp : Ytdlp.parse_stderr_line line with _ | ev
      · exact ih e (by simpa [stderrThreadLoop, hp] using h)
      · cases ev with
        | usageError msg =>
            simp [stderrThreadLoop, hp] at h
            exact Or.inr ⟨msg, h.symm⟩
        | missingVideo id =>
            simp [stderrThreadLoop, hp] at h
            exact Or.inl h.symm

/-- Claim C6: a download worker run whose stderr parser yields a fatal
sentinel (MissingVideo, surfaced as InvalidVideoId, or UsageError)
returns that typed error and commits terminal status Failed — for every
exit code of the child, including 0, because the joined stderr scraper
result is propagated before the exit code is consulted. -/
theorem claim_c6_fatal_stderr :
    ∀ (env : DownloadBodyEnv) (e : DownloadError),
      env.isRedownload = false → env.fileExistsAtStart = false →
      env.systemLogOk = true → env.connOk = true → env.updatesOk = true →
      env.spawnOk = true → env.stdoutLogOk = true → env.stderrLogOk = true →
      env.stdoutResult = .ok () →
      stderrThreadLoop env.stderrLines = .error e →
      (enqueue_download_worker env).result = .error e ∧
      (enqueue_download_worker env).committedStatus = .failed ∧
      (e = .invalidVideoId ∨ ∃ m, e = .usageError m) := by
  intro env e hred hfile hsys hconn hupd hspawn hso hse hstdout hloop
  refine ⟨?_, ?_, stderrLoop_error_shape env.stderrLines e hloop⟩ <;>
    simp [enqueue_download_worker, downloadCommit,
      hred, hfile, hsys, hconn, hupd, hspawn, hso, hse, hstdout, hloop]

/-- Witness for claim C6: a run that sees the missing-content stderr
line and a child exiting with code 0 still fails with InvalidVideoId. -/
theorem claim_c6_fatal_stderr_witness :
    (enqueue_download_worker
        { isRedownload := false, fileExistsAtStart := false, systemLogOk := true,
          connOk := true, updatesOk := true, spawnOk := true, stdoutLogOk := true,
          stderrLogOk := true, stdoutResult := .ok (),
          stderrLines := ["ERROR: [youtube] abcdefghijk: Video unavailable".toList],
          exitCode := some 0, fileExistsAtEnd := true, audioPath := ['p'],
          cellAtExit := DownloadState.default 0 }).result = .error .invalidVideoId ∧
    (enqueue_download_worker
        { isRedownload := false, fileExistsAtStart := false, systemLogOk := true,
          connOk := true, updatesOk := true, spawnOk := true, stdoutLogOk := true,
          stderrLogOk := true, stdoutResult := .ok (),
          stderrLines := ["ERROR: [youtube] abcdefghijk: Video unavailable".toList],
          exitCode := some 0, fileExistsAtEnd := true, audioPath := ['p'],
          cellAtExit := DownloadState.default 0 }).committedStatus = .failed := by
  have h := claim_c6_fatal_stderr
    { isRedownload := false, fileExistsAtStart := false, systemLogOk := true,
      connOk := true, updatesOk := true, spawnOk := true, stdoutLogOk := true,
      stderrLogOk := true, stdoutResult := .ok (),
      stderrLines := ["ERROR: [youtube] abcdefghijk: Video unavailable".toList],
      exitCode := some 0, fileExistsAtEnd := true, audioPath := ['p'],
      cellAtExit := DownloadState.default 0 }
    .invalidVideoId rfl rfl rfl rfl rfl rfl rfl rfl rfl (by decide)
  exact ⟨h.1, h.2.1⟩

end ClaimC6

namespace Ytdlp

open Chars

/-- The usage-error matcher succeeds at the head of a line of the
(corrected) production `yt-dlp.exe: error: <msg>`, capturing the
greedy remainder. -/
lemma usageMatchAt_production (msg : List Char) (hne : msg ≠ [])
    (hhead : isRustWs (msg.headD 'x') = false)
    (hnl : msg.all (fun c => c ≠ '\n') = true) :
    usageMatchAt (usageLit ++ msg) = some msg := by
  have key : usageMatchAt (usageLit ++ msg) =
      (if (msg.dropWhile isRustWs).takeWhile (fun c => c ≠ '\n') = [] then none
       else some ((msg.dropWhile isRustWs).takeWhile (fun c => c ≠ '\n'))) := rfl
  rw [key, dropWhile_head_false hhead, takeWhile_all hnl]
  simp [hne]

/-- The missing-video matcher succeeds at the head of a line of the
production `ERROR: [youtube] <id>: Video unavailable`, capturing the
id. -/
lemma missingMatchAt_production (id : List Char) (hne : id ≠ [])
    (hall : id.all isYoutubeIdChar = true)
    (hhead : isRustWs (id.headD 'x') = false) :
    missingMatchAt (missingLit ++ (id ++ missingTail)) = some id := by
  have key : missingMatchAt (missingLit ++ (id ++ missingTail)) =
      (if ((id ++ missingTail).dropWhile isRustWs).takeWhile isYoutubeIdChar = [] then
         none
       else
         (stripLit missingTail
             (((id ++ missingTail).dropWhile isRustWs).dropWhile isYoutubeIdChar)).bind
           (fun _ =>
             some (((id ++ missingTail).dropWhile isRustWs).takeWhile isYoutubeIdChar))) :=
    rfl
  have hdw : (id ++ missingTail).dropWhile isRustWs = id ++ missingTail := by
    cases id with
    | nil => exact absurd rfl hne
    | cons c rest =>
        simp only [List.headD_cons] at hhead
        apply dropWhile_head_false
        show isRustWs (((c :: rest) ++ missingTail).headD 'x') = false
        simpa using hhead
  have htw : (id ++ missingTail).takeWhile isYoutubeIdChar = id := by
    rw [takeWhile_append_all missingTail hall,
      show missingTail.takeWhile isYoutubeIdChar = [] from by decide, List.append_nil]
  have hdw2 : (id ++ missingTail).dropWhile isYoutubeIdChar = missingTail := by
    rw [dropWhile_append_all missingTail hall]
    decide
  rw [key, hdw, htw, hdw2,
    show stripLit missingTail missingTail = some [] from by decide]
  simp [hne]

/-- Trimming a line of the usage production whose tail neither starts
nor ends in whitespace is the identity. -/
lemma rustTrim_usage (msg : List Char) (hne : msg ≠ [])
    (hlast : isRustWs (lastCharD 'x' msg) = false) :
    rustTrim (usageLit ++ msg) = usageLit ++ msg := by
  unfold rustTrim
  have h1 : trimLeft (usageLit ++ msg) = usageLit ++ msg := by
    apply dropWhile_head_false
    show isRustWs ((usageLit ++ msg).headD 'x') = false
    rw [show (usageLit ++ msg).headD 'x' = 'y' from rfl]
    decide
  have h2 : trimRight msg = msg := trimRight_last msg hne hlast
  rw [h1, trimRight_append _ _ (by rw [h2]; exact hne), h2]

/-- Trimming a line of the missing-video production is the identity
(the literal tail ends in a non-whitespace character). -/
lemma rustTrim_missing (id : List Char) :
    rustTrim (missingLit ++ (id ++ missingTail)) = missingLit ++ (id ++ missingTail) := by
  unfold rustTrim
  have h1 : trimLeft (missingLit ++ (id ++ missingTail)) =
      missingLit ++ (id ++ missingTail) := by
    apply dropWhile_head_false
    show isRustWs ((missingLit ++ (id ++ missingTail)).headD 'x') = false
    rw [show (missingLit ++ (id ++ missingTail)).headD 'x' = 'E' from rfl]
    decide
  have htail : trimRight missingTail = missingTail := by decide
  have h2 : trimRight (id ++ missingTail) = id ++ missingTail := by
    rw [trimRight_append _ _ (by rw [htail]; decide), htail]
  rw [h1, trimRight_append _ _ (by rw [h2]; simp [missingTail]), h2]

end Ytdlp

section ClaimC8

open Chars Ytdlp

/-- Claim C8 counterexample: the claim says every line of the production
`yt-dlp: error: <message>` yields UsageError, but the source regex
spells the binary name `yt-dlp.exe`, so the spec's production line
yields no event at all. -/
theorem claim_c8_counterexample :
    Ytdlp.parse_stderr_line ("yt-dlp: error: test".toList) = none ∧
    (none : Option ParsedStderrLine) ≠ some (.usageError ("test".toList)) := by
  decide

/-- Claim C8 (amended): the stderr parser yields UsageError(msg) for
every line of the corrected usage production `yt-dlp.exe: error: <msg>`
(the regex writes the binary name with an unescaped dot, so any single
character may stand in its place, but the spec's `yt-dlp:` spelling does
not match); it yields MissingVideo(id) for every line of the production
`ERROR: [youtube] <id>: Video unavailable` whose id is a non-empty run
of id characters, provided the usage regex (tried first) finds no match
in the line; and it yields no event for every line in which neither
regex finds a match.  Matching is unanchored substring search, so lines
merely containing a production also yield events. -/
theorem claim_c8_stderr_productions :
    (∀ msg : List Char, msg ≠ [] →
       isRustWs (msg.headD 'x') = false →
       isRustWs (lastCharD 'x' msg) = false →
       msg.all (fun c => c ≠ '\n') = true →
       Ytdlp.parse_stderr_line (usageLit ++ msg) = some (.usageError msg)) ∧
    (∀ id : List Char, id ≠ [] →
       id.all isYoutubeIdChar = true →
       isRustWs (id.headD 'x') = false →
       searchSome usageMatchAt (missingLit ++ (id ++ missingTail)) = none →
       Ytdlp.parse_stderr_line (missingLit ++ (id ++ missingTail)) =
         some (.missingVideo id)) ∧
    (∀ line : List Char,
       searchSome usageMatchAt (rustTrim line) = none →
       searchSome missingMatchAt (rustTrim line) = none →
       Ytdlp.parse_stderr_line line = none) := by
  refine ⟨?_, ?_, ?_⟩
  · intro msg hne hhead hlast hnl
    have hs := searchSome_head (usageMatchAt_production msg hne hhead hnl)
    simp only [Ytdlp.parse_stderr_line]
    rw [rustTrim_usage msg hne hlast, hs]
  · intro id hne hall hhead husage
    have hs := searchSome_head (missingMatchAt_production id hne hall hhead)
    simp only [Ytdlp.parse_stderr_line]
    rw [rustTrim_missing id, husage, hs]
  · intro line h1 h2
    simp only [Ytdlp.parse_stderr_line]
    rw [h1, h2]

/-- Witness for claim C8 at concrete lines of each shape. -/
theorem claim_c8_stderr_productions_witness :
    Ytdlp.parse_stderr_line (usageLit ++ "test".toList) =
      some (.usageError ("test".toList)) ∧
    Ytdlp.parse_stderr_line (missingLit ++ ("abcdefghijk".toList ++ missingTail)) =
      some (.missingVideo ("abcdefghijk".toList)) ∧
    Ytdlp.parse_stderr_line ("[download] 10% of 3MiB".toList) = none := by
  refine ⟨?_, ?_, ?_⟩
  · exact claim_c8_stderr_productions.1 ("test".toList)
      (by decide) (by decide) (by decide) (by decide)
  · exact claim_c8_stderr_productions.2.1 ("abcdefghijk".toList)
      (by decide) (by decide) (by decide) (by decide)
  · exact claim_c8_stderr_productions.2.2 ("[download] 10% of 3MiB".toList)
      (by decide) (by decide)

end ClaimC8

section SanityChecks

example : Chars.parseU8 ['4', '2'] = some 42 := by decide

example : Chars.splitOnColon ['1', ':', '2'] = [['1'], ['2']] := by decide

example :
    Ytdlp.Eta.try_from_str ['1', ':', '2', ':', '3', ':', '4', ':', '5'] =
      .ok { days := 2, hours := 3, minutes := 4, seconds := 5 } := by decide

example :
    Ffmpeg.Time.try_from_str ['7', ':', '8'] =
      .ok { days := 0, hours := 0, minutes := 7, seconds := .val false 8 0 } := by decide

example :
    Ytdlp.parse_stderr_line "yt-dlp.exe: error: bad flag".toList =
      some (.usageError "bad flag".toList) := by decide

example :
    Ytdlp.parse_stderr_line "ERROR: [youtube] dQw4w9WgXcQ: Video unavailable".toList =
      some (.missingVideo "dQw4w9WgXcQ".toList) := by decide

example : Ytdlp.parse_stderr_line "yt-dlp: error: bad flag".toList = none := by decide

example : Ytdlp.parse_stderr_line "[download] 32.4% of...".toList = none := by decide

end SanityChecks
